import Mathlib

/-!
Verification of the emaktab login-automation script (vip.py).

The Python source is shallowly embedded.  Every externally observable
effect of the script (browser-driver calls, HTTP requests, sleeps,
temporary files) is represented either by an environment parameter that
describes what the outside world answers, or by an event recorded in an
explicit trace.  Pure computations of the script (credential parsing,
captcha digit extraction, login-outcome classification) are translated
directly.
-/

namespace Vip

/-- MAX_ATTEMPTS = 3 (vip.py line 20). -/
def MAX_ATTEMPTS : Nat := 3

/-- MAX_CAPTCHA_RETRIES = 2 (vip.py line 32). -/
def MAX_CAPTCHA_RETRIES : Nat := 2

/-- ASCII whitespace recognised by the model of str.strip. -/
def isSpaceChar (c : Char) : Bool :=
  c = ' ' || c = '\t' || c = '\n' || c = '\r'

/-- Model of the Python str.strip method (restricted to ASCII whitespace). -/
def pyStrip (s : String) : String :=
  String.mk (((s.toList.dropWhile isSpaceChar).reverse.dropWhile isSpaceChar).reverse)

/-- Does the character list hay start with the character list needle. -/
def charsStartWith : List Char → List Char → Bool
  | [], _ => true
  | _ :: _, [] => false
  | n :: ns, h :: hs => (n == h) && charsStartWith ns hs

/-- Does needle occur as a contiguous run inside hay. -/
def charsContain (needle : List Char) : List Char → Bool
  | [] => needle.isEmpty
  | h :: hs => charsStartWith needle (h :: hs) || charsContain needle hs

/-- Model of the Python membership test needle in hay on strings. -/
def strContains (hay needle : String) : Bool :=
  charsContain needle.toList hay.toList

/-- Model of the Python str.lower method (restricted to ASCII case). -/
def pyLower (s : String) : String :=
  String.mk (s.toList.map Char.toLower)

/-- Model of line.split(":", 1) on the character list of the line: none
when no colon occurs (vip.py lines 67-68). -/
def split_on_first_colon : List Char → Option (List Char × List Char)
  | [] => none
  | c :: cs =>
    if c == ':' then some ([], cs)
    else
      match split_on_first_colon cs with
      | none => none
      | some (a, b) => some (c :: a, b)

/-- One line of the credential file: the colon test, the split and the
per-part strip performed by load_credentials (vip.py lines 67-69). -/
def parse_line (s : String) : Option (String × String) :=
  match split_on_first_colon s.toList with
  | none => none
  | some (a, b) => some (pyStrip (String.mk a), pyStrip (String.mk b))

/-- Strip every raw line and keep the non-blank ones (vip.py line 62). -/
def prep_lines (lines : List String) : List String :=
  (lines.map pyStrip).filter (fun l => !(l == ""))

/-- Main loop of load_credentials (vip.py lines 64-74).  The accumulator
plays the role of the seen set, and the counter counts the warnings
emitted for lines without a colon. -/
def load_loop : List String → List (String × String) → Nat → List (String × String) × Nat
  | [], acc, warns => (acc.reverse, warns)
  | l :: ls, acc, warns =>
    match parse_line l with
    | some p => if p ∈ acc then load_loop ls acc warns else load_loop ls (p :: acc) warns
    | none => load_loop ls acc (warns + 1)

/-- load_credentials over the raw lines of the file: the returned pair is
the deduplicated credential list and the number of warnings for malformed
lines (vip.py lines 54-77). -/
def load_credentials (lines : List String) : List (String × String) × Nat :=
  load_loop (prep_lines lines) [] 0

/-- Keep the first occurrence of every element.  This is the
specification-side description of deduplication preserving first-seen
order, used to compare the loader against the spec wording. -/
def firstSeenDedup {α : Type} [DecidableEq α] : List α → List α
  | [] => []
  | p :: ps => p :: firstSeenDedup (ps.filter (fun q => decide (q ≠ p)))
termination_by l => l.length
decreasing_by
  simp only [List.length_cons]
  exact Nat.lt_succ_of_le (List.length_filter_le _ _)

/-- Specification-side list of the parsed pairs of the file, in file
order, duplicates kept. -/
def parsed_pairs (lines : List String) : List (String × String) :=
  (prep_lines lines).filterMap parse_line

/-- ParsedText handling of solve_captcha: strip the text, keep the digit
characters (vip.py lines 180-182). -/
def extract_digits (s : String) : String :=
  String.mk ((pyStrip s).toList.filter Char.isDigit)

/-- What the environment answers during one iteration of solve_captcha.
saveFail is an IOError raised by the write to the already created
temporary file (vip.py lines 146-152); apiExc is an exception inside the
OCR phase reaching the handler of line 192; outerExc is an exception in
the element-lookup phase, before any file exists, reaching the handler of
line 201. -/
inductive OcrStep where
  | noSrc
  | downloadFail
  | saveFail
  | ocrError
  | emptyPayload
  | apiExc
  | parsed (text : String)
  | outerExc
  deriving DecidableEq, Repr

/-- Observable events of solve_captcha.  Temporary files are named by the
index of the iteration that created them. -/
inductive Event where
  | createTemp (n : Nat)
  | deleteTemp (n : Nat)
  | sleepBackoff
  deriving DecidableEq, Repr

/-- One iteration of the solve_captcha loop with index i (vip.py lines
126-204).  The option is the value a return statement would produce; none
means the iteration falls through to the next retry.  The unlink of line
197 sits in the finally block of the OCR phase, so it runs on every path
that entered that phase and on no other path; the backoff sleep of line
204 runs only in the handler for unexpected exceptions and only when this
is not the last retry. -/
def runIter (i : Nat) (st : OcrStep) : Option String × List Event :=
  match st with
  | OcrStep.noSrc => (none, [])
  | OcrStep.downloadFail => (none, [])
  | OcrStep.saveFail => (none, [Event.createTemp i])
  | OcrStep.ocrError => (none, [Event.createTemp i, Event.deleteTemp i])
  | OcrStep.emptyPayload => (none, [Event.createTemp i, Event.deleteTemp i])
  | OcrStep.apiExc => (none, [Event.createTemp i, Event.deleteTemp i])
  | OcrStep.parsed t =>
    if (extract_digits t).length = 5 then
      (some (extract_digits t), [Event.createTemp i, Event.deleteTemp i])
    else
      (none, [Event.createTemp i, Event.deleteTemp i])
  | OcrStep.outerExc =>
    (none, if i < MAX_CAPTCHA_RETRIES - 1 then [Event.sleepBackoff] else [])

/-- An iteration produces a value exactly when the environment yields a
parsed text whose digit extraction has length 5. -/
def stepSucceeds : OcrStep → Bool
  | OcrStep.parsed t => decide ((extract_digits t).length = 5)
  | _ => false

/-- Result of a solve_captcha call: the returned value, the full event
trace, and how many loop iterations actually ran. -/
structure SolveResult where
  value : Option String
  events : List Event
  iters : Nat
  deriving DecidableEq, Repr

/-- The retry loop of solve_captcha (vip.py line 126), counting the
iterations that ran. -/
def solveLoop (env : Nat → OcrStep) : Nat → Nat → SolveResult
  | _, 0 => ⟨none, [], 0⟩
  | i, fuel + 1 =>
    match runIter i (env i) with
    | (some s, evs) => ⟨some s, evs, 1⟩
    | (none, evs) =>
      let r := solveLoop env (i + 1) fuel
      ⟨r.value, evs ++ r.events, r.iters + 1⟩

/-- solve_captcha (vip.py lines 124-207) over the per-iteration
environment. -/
def solve_captcha (env : Nat → OcrStep) : SolveResult :=
  solveLoop env 0 MAX_CAPTCHA_RETRIES

/-- check_session_active (vip.py lines 209-220) on the liveness flag.
The triple is the returned boolean, the flag after the call, and whether
the round-trip probe ran at all.  A session never initialised has the
flag false (vip.py line 52), so the early return covers it. -/
def check_session_active (session_active : Bool) (probeFails : Bool) :
    Bool × Bool × Bool :=
  if !session_active then (false, session_active, false)
  else if probeFails then (false, false, true)
  else (true, session_active, true)

/-- Environment of one attempt_login call: the address after the first
submission, whether a captcha image appears within the 5 second probe,
what solve_captcha returns, the address after the captcha resubmission,
and an exception escaping the body to the handler of line 292, with its
message. -/
structure LoginEnv where
  postSubmitUrl : String
  captchaAppears : Bool
  solveResult : Option String
  postCaptchaUrl : String
  raisesMsg : Option String
  deriving DecidableEq, Repr

/-- attempt_login (vip.py lines 222-297): the returned boolean together
with the session_active flag after the call.  The liveness check and the
possible reinitialisation at the top of the call leave the flag true
before the body runs; the handler of line 292 flips it to false exactly
when the lowered message of the caught exception contains the
invalid-session marker. -/
def attempt_login (env : LoginEnv) : Bool × Bool :=
  match env.raisesMsg with
  | some m =>
    (false, !(strContains (pyLower m) "invalid session id"))
  | none =>
    if !(strContains env.postSubmitUrl "login") then (true, true)
    else if env.captchaAppears then
      match env.solveResult with
      | none => (false, true)
      | some _ => (!(strContains env.postCaptchaUrl "login"), true)
    else (false, true)

/-- Environment of one navigate_to_section call: whether the liveness
probe fails, and an exception (with its message) raised by the driver
while navigating or scrolling. -/
structure NavEnv where
  probeFails : Bool
  raisesMsg : Option String
  deriving DecidableEq, Repr

/-- navigate_to_section (vip.py lines 299-320): the returned boolean and
the flag after the call.  The catch-all of line 318 only logs; it never
touches session_active, whatever the error message says. -/
def navigate_to_section (session_active : Bool) (env : NavEnv) : Bool × Bool :=
  let c := check_session_active session_active env.probeFails
  if !c.1 then (false, c.2.1)
  else
    match env.raisesMsg with
    | some _ => (false, c.2.1)
    | none => (true, c.2.1)

/-- Outcome of one attempt_login call as seen by process_account: a
boolean result, or an exception with its message escaping to the handler
of line 381. -/
inductive LoginResult where
  | ok
  | fail
  | excMsg (m : String)
  deriving DecidableEq, Repr

/-- Observable events of process_account.  Sleep events record the bounds
of the interval the duration is drawn from. -/
inductive AccEvent where
  | loginTry (attempt : Nat)
  | backoffSleep (lo hi : ℚ)
  | plainSleep (d : ℚ)
  | reinit
  | capture
  deriving DecidableEq, Repr

/-- Attempt loop of process_account (vip.py lines 355-387): attempt is
the 1-based counter, fuel the remaining iterations, d the module-level
DELAY_BETWEEN_ATTEMPTS value fixed at import time.  On a failed attempt
the sleep of line 379 draws from the interval from d to d * 1.5,
independently of the attempt number; the exception path sleeps exactly d
(line 387) and reinitialises the driver when the lowered message contains
the session marker (lines 383-385).  Neither path sleeps after the final
attempt. -/
def paGo (d : ℚ) (env : Nat → LoginResult) : Nat → Nat → Bool × List AccEvent
  | _, 0 => (false, [])
  | attempt, fuel + 1 =>
    match env attempt with
    | LoginResult.ok => (true, [AccEvent.loginTry attempt, AccEvent.capture])
    | LoginResult.fail =>
      let sleeps :=
        if attempt < MAX_ATTEMPTS then [AccEvent.backoffSleep d (d * 3 / 2)] else []
      let r := paGo d env (attempt + 1) fuel
      (r.1, AccEvent.loginTry attempt :: (sleeps ++ r.2))
    | LoginResult.excMsg m =>
      let re := if strContains (pyLower m) "session" then [AccEvent.reinit] else []
      let sleeps := if attempt < MAX_ATTEMPTS then [AccEvent.plainSleep d] else []
      let r := paGo d env (attempt + 1) fuel
      (r.1, AccEvent.loginTry attempt :: (re ++ sleeps ++ r.2))

/-- process_account (vip.py lines 353-390) over the per-attempt
environment. -/
def process_account (d : ℚ) (env : Nat → LoginResult) : Bool × List AccEvent :=
  paGo d env 1 MAX_ATTEMPTS

/-- Bounds of the backoff sleeps of a process_account run, in trace
order. -/
def backoffSleeps (r : Bool × List AccEvent) : List (ℚ × ℚ) :=
  r.2.filterMap (fun e =>
    match e with
    | AccEvent.backoffSleep lo hi => some (lo, hi)
    | _ => none)

/-- Outcome of one process_account call as seen by process_all_accounts:
success, failure, or an exception escaping to the handler of line 415. -/
inductive AccountResult where
  | succ
  | fail
  | raiseExc
  deriving DecidableEq, Repr

/-- Observable events of process_all_accounts. -/
inductive RunEvent where
  | account (idx : Nat)
  | interSleep
  | initDriver
  | quitDriver
  deriving DecidableEq, Repr

/-- Account loop of process_all_accounts (vip.py lines 401-411): idx is
the 1-based index; an exception escaping process_account aborts the rest
of the loop; a randomized sleep separates consecutive accounts. -/
def runLoop (total : Nat) : Nat → List AccountResult → Nat × List RunEvent
  | _, [] => (0, [])
  | idx, r :: rs =>
    match r with
    | AccountResult.raiseExc => (0, [RunEvent.account idx])
    | _ =>
      let inc := if r = AccountResult.succ then 1 else 0
      let sleeps := if idx < total then [RunEvent.interSleep] else []
      let rest := runLoop total (idx + 1) rs
      (inc + rest.1, RunEvent.account idx :: (sleeps ++ rest.2))

/-- process_all_accounts (vip.py lines 392-424) over the per-account
outcomes: the final success count and the event trace.  With an empty
credential list the function returns before the driver exists (line 396);
otherwise the finally block of line 418 quits the driver exactly once,
whether the loop completed or an exception aborted it. -/
def process_all_accounts (rs : List AccountResult) : Nat × List RunEvent :=
  if rs.isEmpty then (0, [])
  else
    ((runLoop rs.length 1 rs).1,
      RunEvent.initDriver :: ((runLoop rs.length 1 rs).2 ++ [RunEvent.quitDriver]))

/-! ### Helper lemmas about the credential loader -/

theorem mem_filter_notMem_aux (p : String × String) (acc : List (String × String))
    (X : List (String × String)) :
    X.filter (fun q => decide (q ∉ p :: acc)) =
      (X.filter (fun q => decide (q ∉ acc))).filter (fun q => decide (q ≠ p)) := by
  rw [List.filter_filter]
  apply List.filter_congr
  intro a _
  by_cases h1 : a = p
  · subst h1
    simp [List.mem_cons]
  · by_cases h2 : a ∈ acc
    · simp [List.mem_cons, h1, h2]
    · simp [List.mem_cons, h1, h2]

theorem load_loop_fst (ls : List String) (acc : List (String × String)) (w : Nat) :
    (load_loop ls acc w).1 =
      acc.reverse ++
        firstSeenDedup ((ls.filterMap parse_line).filter (fun q => decide (q ∉ acc))) := by
  induction ls generalizing acc w with
  | nil => simp [load_loop, firstSeenDedup]
  | cons l ls ih =>
    cases hp : parse_line l with
    | none =>
      simp only [load_loop, hp]
      rw [ih, List.filterMap_cons_none hp]
    | some p =>
      by_cases hmem : p ∈ acc
      · simp only [load_loop, hp, if_pos hmem]
        rw [ih, List.filterMap_cons_some hp, List.filter_cons_of_neg (by simp [hmem])]
      · simp only [load_loop, hp, if_neg hmem]
        rw [ih, List.filterMap_cons_some hp, List.filter_cons_of_pos (by simp [hmem])]
        simp only [firstSeenDedup, List.reverse_cons, List.append_assoc,
          List.singleton_append]
        exact congrArg (fun z => acc.reverse ++ p :: firstSeenDedup z)
          (mem_filter_notMem_aux p acc (List.filterMap parse_line ls))

theorem load_loop_snd (ls : List String) (acc : List (String × String)) (w : Nat) :
    (load_loop ls acc w).2 =
      w + (ls.filter (fun l => (parse_line l).isNone)).length := by
  induction ls generalizing acc w with
  | nil => simp [load_loop]
  | cons l ls ih =>
    cases hp : parse_line l with
    | none =>
      simp only [load_loop, hp]
      rw [ih, List.filter_cons_of_pos (by simp [hp])]
      simp only [List.length_cons]
      omega
    | some p =>
      by_cases hmem : p ∈ acc
      · simp only [load_loop, hp, if_pos hmem]
        rw [ih, List.filter_cons_of_neg (by simp [hp])]
      · simp only [load_loop, hp, if_neg hmem]
        rw [ih, List.filter_cons_of_neg (by simp [hp])]

theorem load_credentials_eq_dedup (lines : List String) :
    (load_credentials lines).1 = firstSeenDedup (parsed_pairs lines) := by
  unfold load_credentials parsed_pairs
  rw [load_loop_fst]
  simp

theorem split_isSome_of_colon (l : List Char) (h : ':' ∈ l) :
    (split_on_first_colon l).isSome := by
  induction l with
  | nil => cases h
  | cons c cs ih =>
    by_cases hc : c = ':'
    · subst hc
      simp [split_on_first_colon]
    · have hcs : ':' ∈ cs := by
        rcases List.mem_cons.mp h with h1 | h1
        · exact absurd h1.symm hc
        · exact h1
      have := ih hcs
      unfold split_on_first_colon
      rw [if_neg (by simpa using hc)]
      cases hs : split_on_first_colon cs with
      | none => rw [hs] at this; cases this
      | some ab => cases ab with | mk a b => simp

/-!
### C3 and C10: the credential loader
-/

/-- C3: the credential loader yields the pairs obtained by splitting each
non-blank line on its first colon and trimming, skips colonless lines with
a warning, and deduplicates by exact pair equality preserving first-seen
order.  First two conjuncts: the concrete file of the claim yields exactly
the two pairs in order, and one warning.  Third conjunct: for every input,
the loader output is the first-seen deduplication of the parsed pairs in
file order. -/
theorem load_credentials_dedup_first_seen :
    (load_credentials ["a:b", "a:b", "c:d", "badline"]).1 = [("a", "b"), ("c", "d")] ∧
    (load_credentials ["a:b", "a:b", "c:d", "badline"]).2 = 1 ∧
    (∀ lines : List String, (load_credentials lines).1 = firstSeenDedup (parsed_pairs lines)) :=
  ⟨by decide, by decide, load_credentials_eq_dedup⟩

/-- C10: a line containing a colon is always accepted, even with an empty
identifier or secret part: the line of the form colon-then-x yields the
pair of empty identifier and x, the line id-then-colon yields id with an
empty secret, and in general any line whose stripped form contains a colon
produces exactly one credential pair. -/
theorem load_credentials_accepts_empty_fields :
    (load_credentials [":x"]).1 = [("", "x")] ∧
    (load_credentials ["id:"]).1 = [("id", "")] ∧
    (∀ s : String, ':' ∈ (pyStrip s).toList → (load_credentials [s]).1.length = 1) := by
  refine ⟨by decide, by decide, ?_⟩
  intro s h
  have hne : ¬(pyStrip s == "") = true := by
    intro hb
    have : pyStrip s = "" := by simpa using hb
    rw [this] at h
    cases h
  have hsome := split_isSome_of_colon _ h
  unfold load_credentials prep_lines
  simp only [List.map_cons, List.map_nil, List.filter_cons, List.filter_nil]
  have hfalse : (pyStrip s == "") = false := by
    cases hb : (pyStrip s == "") with
    | false => rfl
    | true => exact absurd hb hne
  simp only [hfalse, Bool.not_false, if_true]
  cases hp : split_on_first_colon (pyStrip s).toList with
  | none => rw [hp] at hsome; cases hsome
  | some ab =>
    cases ab with
    | mk a b =>
      have hp2 : split_on_first_colon (pyStrip s).data = some (a, b) := hp
      simp [load_loop, parse_line, hp2]

/-- Witness for the universally quantified part of the C10 theorem at a
concrete line with an empty identifier field. -/
theorem load_credentials_accepts_empty_fields_witness :
    (load_credentials ["  :x  "]).1.length = 1 :=
  load_credentials_accepts_empty_fields.2.2 "  :x  " (by decide)

/-! ### Helper lemmas about the captcha solver -/

theorem runIter_value_none (i : Nat) (st : OcrStep) (h : stepSucceeds st = false) :
    (runIter i st).1 = none := by
  cases st <;> try rfl
  case parsed t =>
    simp only [stepSucceeds, decide_eq_false_iff_not] at h
    simp [runIter, h]

theorem runIter_value_succ (i : Nat) (st : OcrStep) (h : stepSucceeds st = true) :
    ∃ t, st = OcrStep.parsed t ∧ (runIter i st).1 = some (extract_digits t) := by
  cases st
  case parsed t =>
    simp only [stepSucceeds, decide_eq_true_eq] at h
    exact ⟨t, rfl, by simp [runIter, h]⟩
  all_goals exact absurd h (by simp [stepSucceeds])

theorem solveLoop_succ_done (env : Nat → OcrStep) (i fuel : Nat) (s : String)
    (h : (runIter i (env i)).1 = some s) :
    solveLoop env i (fuel + 1) = ⟨some s, (runIter i (env i)).2, 1⟩ := by
  cases hr : runIter i (env i) with
  | mk v e =>
    rw [hr] at h
    simp only at h
    subst h
    simp [solveLoop, hr]

theorem solveLoop_succ_next (env : Nat → OcrStep) (i fuel : Nat)
    (h : (runIter i (env i)).1 = none) :
    solveLoop env i (fuel + 1) =
      ⟨(solveLoop env (i + 1) fuel).value,
        (runIter i (env i)).2 ++ (solveLoop env (i + 1) fuel).events,
        (solveLoop env (i + 1) fuel).iters + 1⟩ := by
  cases hr : runIter i (env i) with
  | mk v e =>
    rw [hr] at h
    simp only at h
    subst h
    simp [solveLoop, hr]

/-!
### C2: retry bound of the captcha solver
-/

/-- C2: if every iteration fails (whatever the failure reason, a rejected
digit length included), solve_captcha returns none after exactly
MAX_CAPTCHA_RETRIES iterations, never more; and when iteration k is the
first to yield an accepted 5-digit string, the call returns that string
at once, after k + 1 iterations, without consuming the remaining
retries. -/
theorem solve_captcha_retry_bound :
    (∀ env : Nat → OcrStep,
      (∀ i, i < MAX_CAPTCHA_RETRIES → stepSucceeds (env i) = false) →
        (solve_captcha env).value = none ∧
        (solve_captcha env).iters = MAX_CAPTCHA_RETRIES) ∧
    (∀ (env : Nat → OcrStep) (k : Nat), k < MAX_CAPTCHA_RETRIES →
      (∀ i, i < k → stepSucceeds (env i) = false) → stepSucceeds (env k) = true →
        (solve_captcha env).value = (runIter k (env k)).1 ∧
        (solve_captcha env).iters = k + 1) := by
  constructor
  · intro env h
    have hf0 := runIter_value_none 0 (env 0) (h 0 (by decide))
    have hf1 := runIter_value_none 1 (env 1) (h 1 (by decide))
    have step0 : solve_captcha env =
        ⟨(solveLoop env 1 1).value,
          (runIter 0 (env 0)).2 ++ (solveLoop env 1 1).events,
          (solveLoop env 1 1).iters + 1⟩ :=
      solveLoop_succ_next env 0 1 hf0
    have step1 : solveLoop env 1 1 =
        ⟨(solveLoop env 2 0).value,
          (runIter 1 (env 1)).2 ++ (solveLoop env 2 0).events,
          (solveLoop env 2 0).iters + 1⟩ :=
      solveLoop_succ_next env 1 0 hf1
    rw [step0, step1]
    exact ⟨rfl, rfl⟩
  · intro env k hk h0 hs
    have hk2 : k < 2 := hk
    interval_cases k
    · obtain ⟨t, ht, hv⟩ := runIter_value_succ 0 (env 0) hs
      have hrun : solve_captcha env = ⟨some (extract_digits t), (runIter 0 (env 0)).2, 1⟩ :=
        solveLoop_succ_done env 0 1 (extract_digits t) hv
      rw [hrun, hv]
      exact ⟨rfl, rfl⟩
    · have hf0 := runIter_value_none 0 (env 0) (h0 0 (by decide))
      obtain ⟨t, ht, hv⟩ := runIter_value_succ 1 (env 1) hs
      have step0 : solve_captcha env =
          ⟨(solveLoop env 1 1).value,
            (runIter 0 (env 0)).2 ++ (solveLoop env 1 1).events,
            (solveLoop env 1 1).iters + 1⟩ :=
        solveLoop_succ_next env 0 1 hf0
      have step1 : solveLoop env 1 1 = ⟨some (extract_digits t), (runIter 1 (env 1)).2, 1⟩ :=
        solveLoop_succ_done env 1 0 (extract_digits t) hv
      rw [step0, step1, hv]
      exact ⟨rfl, rfl⟩

/-- Witness for the C2 theorem at two concrete environments: one where
every iteration fails, one where the first iteration yields an accepted
5-digit string. -/
theorem solve_captcha_retry_bound_witness :
    ((solve_captcha (fun _ => OcrStep.noSrc)).value = none ∧
      (solve_captcha (fun _ => OcrStep.noSrc)).iters = MAX_CAPTCHA_RETRIES) ∧
    ((solve_captcha (fun _ => OcrStep.parsed "12345")).value =
        (runIter 0 ((fun _ : Nat => OcrStep.parsed "12345") 0)).1 ∧
      (solve_captcha (fun _ => OcrStep.parsed "12345")).iters = 0 + 1) :=
  ⟨solve_captcha_retry_bound.1 (fun _ => OcrStep.noSrc) (fun _ _ => rfl),
    solve_captcha_retry_bound.2 (fun _ => OcrStep.parsed "12345") 0 (by decide)
      (fun i hi => absurd hi (Nat.not_lt_zero i)) (by decide)⟩

/-!
### C5: digit extraction and the 5-digit acceptance rule
-/

/-- C5: the solver strips all non-digit characters from the parsed text
and accepts the result exactly when 5 digits remain: the two payloads of
the claim behave as stated, every extraction result is digits-only, and
an iteration that parses text t returns the digit string exactly when it
has length 5. -/
theorem captcha_digit_extraction :
    extract_digits "12 3-45" = "12345" ∧
    (runIter 0 (OcrStep.parsed "12 3-45")).1 = some "12345" ∧
    extract_digits "1234" = "1234" ∧
    (runIter 0 (OcrStep.parsed "1234")).1 = none ∧
    (∀ t, (extract_digits t).toList.all Char.isDigit = true) ∧
    (∀ (i : Nat) (t : String), (runIter i (OcrStep.parsed t)).1 =
      if (extract_digits t).length = 5 then some (extract_digits t) else none) := by
  refine ⟨by decide, by decide, by decide, by decide, ?_, ?_⟩
  · intro t
    have h2 : (extract_digits t).toList = (pyStrip t).toList.filter Char.isDigit := rfl
    rw [h2, List.all_eq_true]
    intro a ha
    exact (List.mem_filter.mp ha).2
  · intro i t
    by_cases h : (extract_digits t).length = 5
    · simp [runIter, h]
    · simp [runIter, h]

/-!
### C9: sleeps between failed captcha retries
-/

/-- Sleep count of one iteration: a backoff sleep happens exactly in an
iteration failing with an unexpected exception that is not the last
retry. -/
theorem runIter_sleep_count (i : Nat) (st : OcrStep) :
    (runIter i st).2.count Event.sleepBackoff =
      if st = OcrStep.outerExc ∧ i < MAX_CAPTCHA_RETRIES - 1 then 1 else 0 := by
  cases st with
  | noSrc => rw [if_neg (by rintro ⟨h, _⟩; cases h)]; rfl
  | downloadFail => rw [if_neg (by rintro ⟨h, _⟩; cases h)]; rfl
  | saveFail => rw [if_neg (by rintro ⟨h, _⟩; cases h)]; rfl
  | ocrError => rw [if_neg (by rintro ⟨h, _⟩; cases h)]; rfl
  | emptyPayload => rw [if_neg (by rintro ⟨h, _⟩; cases h)]; rfl
  | apiExc => rw [if_neg (by rintro ⟨h, _⟩; cases h)]; rfl
  | parsed t =>
    rw [if_neg (by rintro ⟨h, _⟩; cases h)]
    by_cases h : (extract_digits t).length = 5
    · simp only [runIter, if_pos h]; rfl
    · simp only [runIter, if_neg h]; rfl
  | outerExc =>
    by_cases h : i < MAX_CAPTCHA_RETRIES - 1
    · rw [if_pos ⟨rfl, h⟩]
      simp only [runIter, if_pos h]
      rfl
    · rw [if_neg (by rintro ⟨_, hh⟩; exact h hh)]
      simp only [runIter, if_neg h]
      rfl

/-- C9 counterexample: with an OCR payload whose digit extraction has
length 4 on both iterations, solve_captcha runs two consecutive failed
retries and its trace contains no sleep at all — refuting the claim that
a short random sleep separates every two consecutive failed retries for
every failure kind. -/
theorem solve_captcha_no_sleep_between_failed_retries :
    (solve_captcha (fun _ => OcrStep.parsed "1234")).iters = 2 ∧
    (solve_captcha (fun _ => OcrStep.parsed "1234")).value = none ∧
    (solve_captcha (fun _ => OcrStep.parsed "1234")).events.count Event.sleepBackoff = 0 := by
  decide

/-- C9 amended: the backoff sleep of line 204 runs exactly in an
iteration that fails with an unexpected exception reaching the handler of
line 201 and is not the last retry; every other failure kind (missing
image source, download failure, save failure, OCR processing error, empty
payload, rejected digit length, OCR API exception) proceeds to the next
retry immediately, so an environment without such unexpected exceptions
produces a completely sleep-free trace. -/
theorem solve_captcha_sleep_only_on_unexpected :
    (∀ (i : Nat) (st : OcrStep),
      (runIter i st).2.count Event.sleepBackoff =
        if st = OcrStep.outerExc ∧ i < MAX_CAPTCHA_RETRIES - 1 then 1 else 0) ∧
    (∀ env : Nat → OcrStep, (∀ i, env i ≠ OcrStep.outerExc) →
      (solve_captcha env).events.count Event.sleepBackoff = 0) := by
  refine ⟨runIter_sleep_count, ?_⟩
  intro env h
  have key : ∀ fuel i, (solveLoop env i fuel).events.count Event.sleepBackoff = 0 := by
    intro fuel
    induction fuel with
    | zero => intro i; rfl
    | succ fuel ih =>
      intro i
      have hcnt : (runIter i (env i)).2.count Event.sleepBackoff = 0 := by
        rw [runIter_sleep_count, if_neg (by rintro ⟨hh, _⟩; exact h i hh)]
      cases hv : (runIter i (env i)).1 with
      | some s =>
        rw [solveLoop_succ_done env i fuel s hv]
        exact hcnt
      | none =>
        rw [solveLoop_succ_next env i fuel hv]
        show ((runIter i (env i)).2 ++ (solveLoop env (i + 1) fuel).events).count
          Event.sleepBackoff = 0
        rw [List.count_append, hcnt, ih (i + 1)]
  exact key MAX_CAPTCHA_RETRIES 0

/-- Witness for the hypothesis-bearing part of the C9 amended theorem at
a concrete environment without unexpected exceptions. -/
theorem solve_captcha_sleep_only_on_unexpected_witness :
    (solve_captcha (fun _ => OcrStep.downloadFail)).events.count Event.sleepBackoff = 0 :=
  solve_captcha_sleep_only_on_unexpected.2 (fun _ => OcrStep.downloadFail)
    (fun _ hh => by cases hh)

/-!
### C7: temporary captcha image file cleanup
-/

/-- C7 counterexample: when the write to the already created temporary
file raises an IOError, the iteration continues without deleting the file
— the unlink of line 197 sits in a finally block this path never enters —
so a created file survives the whole solve_captcha call. -/
theorem solve_captcha_temp_file_leak :
    Event.createTemp 0 ∈ (solve_captcha (fun _ => OcrStep.saveFail)).events ∧
    Event.deleteTemp 0 ∉ (solve_captcha (fun _ => OcrStep.saveFail)).events := by
  decide

/-- Cleanup within one iteration: every path other than a failing
temp-file write deletes what it created. -/
theorem runIter_cleanup (i : Nat) (st : OcrStep) (h : st ≠ OcrStep.saveFail) (n : Nat)
    (hc : Event.createTemp n ∈ (runIter i st).2) :
    Event.deleteTemp n ∈ (runIter i st).2 := by
  cases st with
  | noSrc => cases hc
  | downloadFail => cases hc
  | saveFail => exact absurd rfl h
  | ocrError =>
    simp only [runIter] at hc ⊢
    simp at hc
    subst hc
    simp
  | emptyPayload =>
    simp only [runIter] at hc ⊢
    simp at hc
    subst hc
    simp
  | apiExc =>
    simp only [runIter] at hc ⊢
    simp at hc
    subst hc
    simp
  | parsed t =>
    by_cases hlen : (extract_digits t).length = 5
    · simp only [runIter, if_pos hlen] at hc ⊢
      simp at hc
      subst hc
      simp
    · simp only [runIter, if_neg hlen] at hc ⊢
      simp at hc
      subst hc
      simp
  | outerExc =>
    simp only [runIter] at hc
    by_cases hi : i < MAX_CAPTCHA_RETRIES - 1
    · rw [if_pos hi] at hc
      simp at hc
    · rw [if_neg hi] at hc
      cases hc

/-- C7 amended: within each solve_captcha iteration whose temp-file write
succeeds, the created temporary file is deleted on every exit path of the
iteration (success, rejected length, OCR error, empty payload, API
exception); only a write failing after file creation leaks the file. -/
theorem solve_captcha_temp_cleanup (env : Nat → OcrStep)
    (h : ∀ i, env i ≠ OcrStep.saveFail) (n : Nat)
    (hc : Event.createTemp n ∈ (solve_captcha env).events) :
    Event.deleteTemp n ∈ (solve_captcha env).events := by
  have key : ∀ fuel i, Event.createTemp n ∈ (solveLoop env i fuel).events →
      Event.deleteTemp n ∈ (solveLoop env i fuel).events := by
    intro fuel
    induction fuel with
    | zero => intro i hin; cases hin
    | succ fuel ih =>
      intro i hin
      cases hv : (runIter i (env i)).1 with
      | some s =>
        rw [solveLoop_succ_done env i fuel s hv] at hin ⊢
        exact runIter_cleanup i (env i) (h i) n hin
      | none =>
        rw [solveLoop_succ_next env i fuel hv] at hin ⊢
        have hin2 : Event.createTemp n ∈
            (runIter i (env i)).2 ++ (solveLoop env (i + 1) fuel).events := hin
        show Event.deleteTemp n ∈
          (runIter i (env i)).2 ++ (solveLoop env (i + 1) fuel).events
        rcases List.mem_append.mp hin2 with hin3 | hin3
        · exact List.mem_append.mpr (Or.inl (runIter_cleanup i (env i) (h i) n hin3))
        · exact List.mem_append.mpr (Or.inr (ih (i + 1) hin3))
  exact key MAX_CAPTCHA_RETRIES 0 hc

/-- Witness for the C7 amended theorem at a concrete environment whose
iterations all reach the OCR phase and fail there. -/
theorem solve_captcha_temp_cleanup_witness :
    Event.deleteTemp 0 ∈ (solve_captcha (fun _ => OcrStep.ocrError)).events :=
  solve_captcha_temp_cleanup (fun _ => OcrStep.ocrError) (fun _ hh => by cases hh) 0
    (by decide)

/-!
### C4: login outcome classification
-/

/-- C4: attempt_login classifies by the address: an address without the
login segment is a success; an address with it and no captcha within the
probe window is a failure; with a captcha, a failed solve is a failure
and a successful solve is reclassified by the same address rule after the
captcha round-trip. -/
theorem attempt_login_classification (env : LoginEnv) (h : env.raisesMsg = none) :
    (strContains env.postSubmitUrl "login" = false → (attempt_login env).1 = true) ∧
    (strContains env.postSubmitUrl "login" = true → env.captchaAppears = false →
      (attempt_login env).1 = false) ∧
    (strContains env.postSubmitUrl "login" = true → env.captchaAppears = true →
      env.solveResult = none → (attempt_login env).1 = false) ∧
    (∀ s : String, strContains env.postSubmitUrl "login" = true →
      env.captchaAppears = true → env.solveResult = some s →
      (attempt_login env).1 = !(strContains env.postCaptchaUrl "login")) := by
  refine ⟨?_, ?_, ?_, ?_⟩
  · intro hurl
    simp [attempt_login, h, hurl]
  · intro hurl hcap
    simp [attempt_login, h, hurl, hcap]
  · intro hurl hcap hsolve
    simp [attempt_login, h, hurl, hcap, hsolve]
  · intro s hurl hcap hsolve
    simp [attempt_login, h, hurl, hcap, hsolve]

/-- Witness for the C4 theorem at a concrete environment whose post-submit
address left the login page. -/
theorem attempt_login_classification_witness :
    (attempt_login ⟨"https://schools.emaktab.uz/feed", false, none, "", none⟩).1 = true :=
  (attempt_login_classification ⟨"https://schools.emaktab.uz/feed", false, none, "", none⟩
    rfl).1 (by decide)

/-!
### C6: session liveness flag
-/

/-- C6 counterexample: a live session, a healthy probe, and a driver call
inside navigate_to_section that raises an invalid-session error: the
operation returns failure but leaves the liveness flag true (the
catch-all of line 318 never touches it), so not every operation that
raises a session-identity error flips the flag before the session is used
again. -/
theorem session_flag_not_flipped_by_navigation :
    navigate_to_section true ⟨false, some "invalid session id"⟩ = (false, true) := by
  decide

/-- C6 amended: check_session_active returns false immediately, without a
probe, when the flag is already false (covering a session never
initialised or previously marked dead); otherwise it probes, returning
true on success and false with the flag flipped on a probe error.  Among
the callers, attempt_login flips the flag to false exactly when the
caught error message contains the invalid-session marker, while
navigate_to_section swallows driver errors without flipping the flag,
leaving detection to the liveness probe of the next operation. -/
theorem session_liveness_flag :
    (∀ pf : Bool, check_session_active false pf = (false, false, false)) ∧
    check_session_active true true = (false, false, true) ∧
    check_session_active true false = (true, true, true) ∧
    (∀ (env : LoginEnv) (m : String), env.raisesMsg = some m →
      strContains (pyLower m) "invalid session id" = true →
      attempt_login env = (false, false)) ∧
    (∀ env : NavEnv, env.probeFails = false → env.raisesMsg.isSome →
      navigate_to_section true env = (false, true)) := by
  refine ⟨fun pf => rfl, rfl, rfl, ?_, ?_⟩
  · intro env m hmsg hmarker
    simp [attempt_login, hmsg, hmarker]
  · intro env hprobe hmsg
    cases hm : env.raisesMsg with
    | none => rw [hm] at hmsg; cases hmsg
    | some m => simp [navigate_to_section, check_session_active, hprobe, hm]

/-- Witness for the hypothesis-bearing parts of the C6 amended theorem at
concrete inputs. -/
theorem session_liveness_flag_witness :
    attempt_login ⟨"", false, none, "", some "Message: Invalid Session Id"⟩ = (false, false) ∧
    navigate_to_section true ⟨false, some "timeout"⟩ = (false, true) :=
  ⟨session_liveness_flag.2.2.2.1 ⟨"", false, none, "", some "Message: Invalid Session Id"⟩
      "Message: Invalid Session Id" rfl (by decide),
    session_liveness_flag.2.2.2.2 ⟨false, some "timeout"⟩ rfl (by decide)⟩

/-!
### C1: retry bound and backoff of the account orchestrator
-/

/-- Concrete unfolding of process_account when every attempt fails. -/
theorem process_account_always_fail_core (d : ℚ) :
    process_account d (fun _ => LoginResult.fail) =
      (false,
        [AccEvent.loginTry 1, AccEvent.backoffSleep d (d * 3 / 2),
         AccEvent.loginTry 2, AccEvent.backoffSleep d (d * 3 / 2),
         AccEvent.loginTry 3]) := rfl

/-- C1 counterexample: with base delay 6 and a login that always fails,
the two inter-attempt backoff sleeps both draw from the interval from 6
to 9; the bounds of the second sleep are not larger than those of the
first, so the backoff is not scaled up on later attempts. -/
theorem process_account_backoff_not_scaled :
    backoffSleeps (process_account 6 (fun _ => LoginResult.fail)) = [(6, 9), (6, 9)] ∧
    ¬ ((6 : ℚ) < 6 ∨ (9 : ℚ) < 9) := by
  constructor
  · have h9 : (6 : ℚ) * 3 / 2 = 9 := by norm_num
    have hb : backoffSleeps (process_account 6 (fun _ => LoginResult.fail)) =
        [(6, 6 * 3 / 2), (6, 6 * 3 / 2)] := rfl
    rw [hb, h9]
  · push_neg
    exact ⟨le_refl 6, le_refl 9⟩

/-- C1 amended: a credential pair whose login attempt always returns
failure is attempted exactly MAX_ATTEMPTS (3) times; a randomized backoff
drawn from the fixed interval from d to d * 1.5, independent of the
attempt number, separates consecutive attempts, with no sleep after the
final one; the call returns failure and contributes 0 to the success
counter. -/
theorem process_account_retry_bound (d : ℚ) (env : Nat → LoginResult)
    (h : ∀ i, env i = LoginResult.fail) :
    (process_account d env).1 = false ∧
    (process_account d env).2 =
      [AccEvent.loginTry 1, AccEvent.backoffSleep d (d * 3 / 2),
       AccEvent.loginTry 2, AccEvent.backoffSleep d (d * 3 / 2),
       AccEvent.loginTry 3] ∧
    (if (process_account d env).1 then 1 else 0) = 0 := by
  have henv : env = fun _ => LoginResult.fail := funext fun i => h i
  subst henv
  rw [process_account_always_fail_core]
  exact ⟨rfl, rfl, rfl⟩

/-- Witness for the C1 amended theorem at base delay 5 and the constant
failing login. -/
theorem process_account_retry_bound_witness :
    (process_account 5 (fun _ => LoginResult.fail)).1 = false ∧
    (process_account 5 (fun _ => LoginResult.fail)).2 =
      [AccEvent.loginTry 1, AccEvent.backoffSleep 5 (5 * 3 / 2),
       AccEvent.loginTry 2, AccEvent.backoffSleep 5 (5 * 3 / 2),
       AccEvent.loginTry 3] ∧
    (if (process_account 5 (fun _ => LoginResult.fail)).1 then 1 else 0) = 0 :=
  process_account_retry_bound 5 (fun _ => LoginResult.fail) (fun _ => rfl)

/-!
### C8: final count and guaranteed teardown
-/

/-- The account loop itself never quits the driver. -/
theorem runLoop_no_quit (total : Nat) (rs : List AccountResult) (idx : Nat) :
    (runLoop total idx rs).2.count RunEvent.quitDriver = 0 := by
  induction rs generalizing idx with
  | nil => rfl
  | cons r rs ih =>
    cases r with
    | raiseExc => rfl
    | succ =>
      show (RunEvent.account idx ::
        ((if idx < total then [RunEvent.interSleep] else []) ++
          (runLoop total (idx + 1) rs).2)).count RunEvent.quitDriver = 0
      by_cases hi : idx < total
      · simp [hi, List.count_cons, List.count_append, ih (idx + 1)]
      · simp [hi, List.count_cons, List.count_append, ih (idx + 1)]
    | fail =>
      show (RunEvent.account idx ::
        ((if idx < total then [RunEvent.interSleep] else []) ++
          (runLoop total (idx + 1) rs).2)).count RunEvent.quitDriver = 0
      by_cases hi : idx < total
      · simp [hi, List.count_cons, List.count_append, ih (idx + 1)]
      · simp [hi, List.count_cons, List.count_append, ih (idx + 1)]

/-- C8: on the two-account run where the first account succeeds and the
second fails, the final success count is 1 of 2 and the driver is quit
exactly once; and for every non-empty account list, however, the loop
ends, the teardown in the finally block quits the driver exactly once. -/
theorem process_all_accounts_count_and_teardown :
    (process_all_accounts [AccountResult.succ, AccountResult.fail]).1 = 1 ∧
    (process_all_accounts [AccountResult.succ, AccountResult.fail]).2.count
      RunEvent.quitDriver = 1 ∧
    (∀ rs : List AccountResult, rs ≠ [] →
      (process_all_accounts rs).2.count RunEvent.quitDriver = 1) := by
  refine ⟨by decide, by decide, ?_⟩
  intro rs hne
  have hemp : rs.isEmpty = false := by
    cases rs with
    | nil => exact absurd rfl hne
    | cons a l => rfl
  show (if rs.isEmpty then ((0 : Nat), ([] : List RunEvent))
    else ((runLoop rs.length 1 rs).1,
      RunEvent.initDriver :: ((runLoop rs.length 1 rs).2 ++ [RunEvent.quitDriver]))).2.count
      RunEvent.quitDriver = 1
  rw [hemp]
  simp [List.count_cons, List.count_append, runLoop_no_quit]

/-- Witness for the universally quantified teardown part of the C8
theorem at a concrete one-account run that raises. -/
theorem process_all_accounts_count_and_teardown_witness :
    (process_all_accounts [AccountResult.raiseExc]).2.count RunEvent.quitDriver = 1 :=
  process_all_accounts_count_and_teardown.2.2 [AccountResult.raiseExc] (by decide)

end Vip
